import Mathlib

/-!
# Verification of the YOLOv8 FastAPI/Gradio detection service

Shallow embedding of the repository's three source files:
  * `detector.py`  — the normalization layer (`YoloObjectDetector`),
  * `app/main.py`  — the FastAPI HTTP boundary (`/health`, `/predict`),
  * `ui/app.py`    — the Gradio client (render + JSON export).

Modelling conventions:
  * Python floats are modelled as `ℚ` (the claims under scrutiny are exact
    arithmetic identities between fields computed by the very same
    operations, so they are invariant under the numeric interpretation);
  * Python ints as `ℤ`, sizes as `ℕ`;
  * the YOLO model, the PIL image decoder and the HTTP transport are
    external black boxes (per the spec's scope) and enter as function
    parameters;
  * fallible Python code (exceptions) is embedded with `Except PyError`.
-/

set_option autoImplicit false

namespace Yolo

/-- Exceptions that the embedded code can raise. -/
inductive PyError where
  /-- `PIL.UnidentifiedImageError` raised by `Image.open` on undecodable bytes. -/
  | unidentifiedImage
  /-- `requests.HTTPError` raised by `Response.raise_for_status`. -/
  | httpError (status : ℕ)
  deriving DecidableEq

/-- A decoded PIL image; only its pixel dimensions are relevant to the
contract (`image.size` in `detector.py`).  `convert("RGB")` preserves size. -/
structure Img where
  width : ℕ
  height : ℕ
  deriving DecidableEq

/-- Raw single-image YOLO output as consumed by `predict` in `detector.py`:
the parallel arrays `result.boxes.xyxy`, `result.boxes.cls`,
`result.boxes.conf`, and the id→label mapping `result.names`. -/
structure ModelOutput where
  boxes : List (ℚ × ℚ × ℚ × ℚ)
  cls_ids : List ℚ
  scores : List ℚ
  names : ℤ → Option String

/-- Python `int()` applied to a float: truncation toward zero. -/
def pyInt (q : ℚ) : ℤ :=
  q.num.tdiv q.den

/-- Python's three-argument `zip`: pairs position-wise, stopping at the
shortest input. -/
def zip3 {α β γ : Type} : List α → List β → List γ → List (α × β × γ)
  | a :: as, b :: bs, c :: cs => (a, b, c) :: zip3 as bs cs
  | _, _, _ => []

/-- The nested `"bbox"` dictionary built in `_build_detections_dict`
(`detector.py` lines 71-82). -/
structure BBox where
  x1 : ℚ
  y1 : ℚ
  x2 : ℚ
  y2 : ℚ
  width : ℚ
  height : ℚ
  x_center : ℚ
  y_center : ℚ
  image_width : ℕ
  image_height : ℕ
  deriving DecidableEq

/-- One normalized detection dictionary (`detector.py` lines 66-84). -/
structure DetectionRecord where
  class_id : ℤ
  class_name : String
  confidence : ℚ
  bbox : BBox
  deriving DecidableEq

/-- The full response dictionary (`detector.py` lines 86-91). -/
structure DetectionResult where
  image_width : ℕ
  image_height : ℕ
  num_detections : ℕ
  detections : List DetectionRecord
  deriving DecidableEq

/-- The body of the `for box, cls_id, score in zip(...)` loop in
`_build_detections_dict` (`detector.py` lines 61-84): one iteration builds
one detection dictionary. -/
def mkDetection (names : ℤ → Option String) (image_width image_height : ℕ) :
    (ℚ × ℚ × ℚ × ℚ) × ℚ × ℚ → DetectionRecord
  | ((x1, y1, x2, y2), cls_id, score) =>
    let class_id : ℤ := pyInt cls_id
    let label : String := (names class_id).getD (toString class_id)
    { class_id := class_id
      class_name := label
      confidence := score
      bbox :=
        { x1 := x1
          y1 := y1
          x2 := x2
          y2 := y2
          width := x2 - x1
          height := y2 - y1
          x_center := (x1 + x2) / 2
          y_center := (y1 + y2) / 2
          image_width := image_width
          image_height := image_height } }

/-- `YoloObjectDetector._build_detections_dict` (`detector.py` lines 48-91). -/
def _build_detections_dict (boxes : List (ℚ × ℚ × ℚ × ℚ)) (cls_ids : List ℚ)
    (scores : List ℚ) (names : ℤ → Option String)
    (image_width image_height : ℕ) : DetectionResult :=
  let detections : List DetectionRecord :=
    (zip3 boxes cls_ids scores).map (mkDetection names image_width image_height)
  { image_width := image_width
    image_height := image_height
    num_detections := detections.length
    detections := detections }

/-- `YoloObjectDetector.predict` (`detector.py` lines 93-124).  The loaded
YOLO model is the injected black box `model`; `image.convert("RGB")`
preserves the image size, so `w, h = image.size` are the dimensions of the
input image. -/
def predict (model : Img → ModelOutput) : Option Img → DetectionResult
  | none =>
    { image_width := 0
      image_height := 0
      num_detections := 0
      detections := [] }
  | some image =>
    let result := model image
    _build_detections_dict result.boxes result.cls_ids result.scores
      result.names image.width image.height

end Yolo

namespace Yolo

/-! ### Basic lemmas about `zip3` -/

theorem zip3_length {α β γ : Type} (as : List α) (bs : List β) (cs : List γ) :
    (zip3 as bs cs).length = min as.length (min bs.length cs.length) := by
  induction as generalizing bs cs with
  | nil => simp [zip3]
  | cons a as ih =>
    cases bs with
    | nil => simp [zip3]
    | cons b bs =>
      cases cs with
      | nil => simp [zip3]
      | cons c cs =>
        simp [zip3, ih, Nat.succ_min_succ]

theorem zip3_getElem {α β γ : Type} (as : List α) (bs : List β) (cs : List γ)
    (i : ℕ) (h1 : i < as.length) (h2 : i < bs.length) (h3 : i < cs.length)
    (h : i < (zip3 as bs cs).length) :
    (zip3 as bs cs).get ⟨i, h⟩ = (as.get ⟨i, h1⟩, bs.get ⟨i, h2⟩, cs.get ⟨i, h3⟩) := by
  induction as generalizing bs cs i with
  | nil => simp at h1
  | cons a as ih =>
    cases bs with
    | nil => simp at h2
    | cons b bs =>
      cases cs with
      | nil => simp at h3
      | cons c cs =>
        cases i with
        | zero => rfl
        | succ i =>
          simpa [zip3] using
            ih bs cs i (Nat.lt_of_succ_lt_succ h1) (Nat.lt_of_succ_lt_succ h2)
              (Nat.lt_of_succ_lt_succ h3) (by simpa [zip3] using h)

theorem mem_zip3 {α β γ : Type} {as : List α} {bs : List β} {cs : List γ}
    {x : α × β × γ} (hx : x ∈ zip3 as bs cs) :
    x.1 ∈ as ∧ x.2.1 ∈ bs ∧ x.2.2 ∈ cs := by
  induction as generalizing bs cs with
  | nil => simp [zip3] at hx
  | cons a as ih =>
    cases bs with
    | nil => simp [zip3] at hx
    | cons b bs =>
      cases cs with
      | nil => simp [zip3] at hx
      | cons c cs =>
        simp only [zip3, List.mem_cons] at hx
        rcases hx with rfl | hx
        · exact ⟨List.mem_cons_self _ _, List.mem_cons_self _ _, List.mem_cons_self _ _⟩
        · obtain ⟨m1, m2, m3⟩ := ih hx
          exact ⟨List.mem_cons_of_mem _ m1, List.mem_cons_of_mem _ m2,
            List.mem_cons_of_mem _ m3⟩

end Yolo

namespace Yolo

/-! ### Shape of the records produced by `_build_detections_dict` -/

theorem build_detections_eq (boxes : List (ℚ × ℚ × ℚ × ℚ)) (cls_ids scores : List ℚ)
    (names : ℤ → Option String) (iw ih : ℕ) :
    (_build_detections_dict boxes cls_ids scores names iw ih).detections =
      (zip3 boxes cls_ids scores).map (mkDetection names iw ih) :=
  rfl

theorem build_detections_get (boxes : List (ℚ × ℚ × ℚ × ℚ)) (cls_ids scores : List ℚ)
    (names : ℤ → Option String) (iw ih : ℕ) (i : ℕ)
    (h1 : i < boxes.length) (h2 : i < cls_ids.length) (h3 : i < scores.length)
    (h : i < (_build_detections_dict boxes cls_ids scores names iw ih).detections.length) :
    (_build_detections_dict boxes cls_ids scores names iw ih).detections.get ⟨i, h⟩ =
      mkDetection names iw ih
        (boxes.get ⟨i, h1⟩, cls_ids.get ⟨i, h2⟩, scores.get ⟨i, h3⟩) := by
  have hz : i < (zip3 boxes cls_ids scores).length := by
    rw [zip3_length]; omega
  show ((zip3 boxes cls_ids scores).map (mkDetection names iw ih)).get ⟨i, h⟩ = _
  rw [List.get_map, zip3_getElem boxes cls_ids scores i h1 h2 h3]

/-- Concrete fixtures used by the evaluation witnesses below.  The second
box deliberately leaves the 640×480 image bounds (negative and oversized
coordinates) to exercise the absence of clamping; class id 7 has no entry
in `names0` to exercise the stringified fallback. -/
def names0 : ℤ → Option String :=
  fun i => if i = 0 then some "person" else none

def boxes0 : List (ℚ × ℚ × ℚ × ℚ) := [(10, 20, 110, 220), (-5, 3/2, 700, 481)]

def cls0 : List ℚ := [0, 7]

def scores0 : List ℚ := [9/10, 1/4]

/-- **C1.** For every DetectionResult produced by the normalization layer —
both by `_build_detections_dict` on any boxes/class-ids/scores arrays and
any image dimensions, and by `predict` on any model and any optional image
— the `num_detections` field equals the length of the `detections` list. -/
theorem C1_num_detections_eq_length :
    ∀ (boxes : List (ℚ × ℚ × ℚ × ℚ)) (cls_ids scores : List ℚ)
      (names : ℤ → Option String) (iw ih : ℕ),
      (_build_detections_dict boxes cls_ids scores names iw ih).num_detections =
        (_build_detections_dict boxes cls_ids scores names iw ih).detections.length ∧
    ∀ (model : Img → ModelOutput) (oimg : Option Img),
      (predict model oimg).num_detections = (predict model oimg).detections.length := by
  intro boxes cls_ids scores names iw ih
  refine ⟨rfl, ?_⟩
  intro model oimg
  cases oimg with
  | none => rfl
  | some image => rfl

/-- **C3.** `predict` on a null/absent image returns exactly the degenerate
DetectionResult with zero width, zero height, zero count and empty
detections — for every model (the model is never invoked: the result does
not depend on it) and without failing (`predict` is total). -/
theorem C3_predict_none :
    ∀ model : Img → ModelOutput,
      predict model none =
        { image_width := 0
          image_height := 0
          num_detections := 0
          detections := [] } := by
  intro model
  rfl

/-- **C2.** For every DetectionRecord in any DetectionResult produced by the
normalization layer, the derived bbox fields satisfy `width = x2 - x1`,
`height = y2 - y1`, `x_center = (x1+x2)/2`, `y_center = (y1+y2)/2`, and the
corner coordinates are exactly a box of the input array, passed through with
no clamping (to the image bounds or otherwise) and no rounding. -/
theorem C2_bbox_derived_fields (boxes : List (ℚ × ℚ × ℚ × ℚ))
    (cls_ids scores : List ℚ) (names : ℤ → Option String) (iw ih : ℕ)
    (d : DetectionRecord)
    (hd : d ∈ (_build_detections_dict boxes cls_ids scores names iw ih).detections) :
    d.bbox.width = d.bbox.x2 - d.bbox.x1 ∧
    d.bbox.height = d.bbox.y2 - d.bbox.y1 ∧
    d.bbox.x_center = (d.bbox.x1 + d.bbox.x2) / 2 ∧
    d.bbox.y_center = (d.bbox.y1 + d.bbox.y2) / 2 ∧
    ∃ b ∈ boxes, d.bbox.x1 = b.1 ∧ d.bbox.y1 = b.2.1 ∧
      d.bbox.x2 = b.2.2.1 ∧ d.bbox.y2 = b.2.2.2 := by
  rw [build_detections_eq] at hd
  obtain ⟨⟨b, c, s⟩, hmem, rfl⟩ := List.mem_map.mp hd
  obtain ⟨x1, y1, x2, y2⟩ := b
  refine ⟨rfl, rfl, rfl, rfl, (x1, y1, x2, y2), (mem_zip3 hmem).1, rfl, rfl, rfl, rfl⟩

/-- Evaluation of C2 on the fixtures: the second record keeps its
out-of-bounds coordinates verbatim. -/
theorem C2_bbox_derived_fields_witness :
    (mkDetection names0 640 480 ((-5, 3/2, 700, 481), 7, 1/4)) ∈
      (_build_detections_dict boxes0 cls0 scores0 names0 640 480).detections ∧
    ((mkDetection names0 640 480 ((-5, 3/2, 700, 481), 7, 1/4)).bbox.width =
        (mkDetection names0 640 480 ((-5, 3/2, 700, 481), 7, 1/4)).bbox.x2 -
          (mkDetection names0 640 480 ((-5, 3/2, 700, 481), 7, 1/4)).bbox.x1 ∧
      (mkDetection names0 640 480 ((-5, 3/2, 700, 481), 7, 1/4)).bbox.height =
        (mkDetection names0 640 480 ((-5, 3/2, 700, 481), 7, 1/4)).bbox.y2 -
          (mkDetection names0 640 480 ((-5, 3/2, 700, 481), 7, 1/4)).bbox.y1 ∧
      (mkDetection names0 640 480 ((-5, 3/2, 700, 481), 7, 1/4)).bbox.x_center =
        ((mkDetection names0 640 480 ((-5, 3/2, 700, 481), 7, 1/4)).bbox.x1 +
          (mkDetection names0 640 480 ((-5, 3/2, 700, 481), 7, 1/4)).bbox.x2) / 2 ∧
      (mkDetection names0 640 480 ((-5, 3/2, 700, 481), 7, 1/4)).bbox.y_center =
        ((mkDetection names0 640 480 ((-5, 3/2, 700, 481), 7, 1/4)).bbox.y1 +
          (mkDetection names0 640 480 ((-5, 3/2, 700, 481), 7, 1/4)).bbox.y2) / 2 ∧
      ∃ b ∈ boxes0,
        (mkDetection names0 640 480 ((-5, 3/2, 700, 481), 7, 1/4)).bbox.x1 = b.1 ∧
        (mkDetection names0 640 480 ((-5, 3/2, 700, 481), 7, 1/4)).bbox.y1 = b.2.1 ∧
        (mkDetection names0 640 480 ((-5, 3/2, 700, 481), 7, 1/4)).bbox.x2 = b.2.2.1 ∧
        (mkDetection names0 640 480 ((-5, 3/2, 700, 481), 7, 1/4)).bbox.y2 = b.2.2.2) :=
  have hmem : (mkDetection names0 640 480 ((-5, 3/2, 700, 481), 7, 1/4)) ∈
      (_build_detections_dict boxes0 cls0 scores0 names0 640 480).detections :=
    List.mem_cons_of_mem _ (List.mem_cons_self _ _)
  ⟨hmem, C2_bbox_derived_fields boxes0 cls0 scores0 names0 640 480 _ hmem⟩

/-- **C6.** For every DetectionRecord produced by the normalization layer:
if the model's id→name mapping has no entry for the record's class id,
`class_name` is the stringified class id; if an entry exists, `class_name`
is the mapped label. -/
theorem C6_class_name_fallback (boxes : List (ℚ × ℚ × ℚ × ℚ))
    (cls_ids scores : List ℚ) (names : ℤ → Option String) (iw ih : ℕ)
    (d : DetectionRecord)
    (hd : d ∈ (_build_detections_dict boxes cls_ids scores names iw ih).detections) :
    (names d.class_id = none → d.class_name = toString d.class_id) ∧
    (∀ l, names d.class_id = some l → d.class_name = l) := by
  rw [build_detections_eq] at hd
  obtain ⟨⟨b, c, s⟩, hmem, rfl⟩ := List.mem_map.mp hd
  obtain ⟨x1, y1, x2, y2⟩ := b
  constructor
  · intro hnone
    simp [mkDetection] at hnone ⊢
    rw [hnone]
    rfl
  · intro l hl
    simp [mkDetection] at hl ⊢
    rw [hl]
    rfl

/-- Evaluation of C6 on the fixtures: class id 7 is unmapped, so its
`class_name` is the string `"7"` (the mapped case is checked directly on
the first record's fields). -/
theorem C6_class_name_fallback_witness :
    (mkDetection names0 640 480 ((-5, 3/2, 700, 481), 7, 1/4)) ∈
      (_build_detections_dict boxes0 cls0 scores0 names0 640 480).detections ∧
    (mkDetection names0 640 480 ((-5, 3/2, 700, 481), 7, 1/4)).class_name = "7" ∧
    (mkDetection names0 640 480 ((10, 20, 110, 220), 0, 9/10)).class_name = "person" :=
  have hmem : (mkDetection names0 640 480 ((-5, 3/2, 700, 481), 7, 1/4)) ∈
      (_build_detections_dict boxes0 cls0 scores0 names0 640 480).detections :=
    List.mem_cons_of_mem _ (List.mem_cons_self _ _)
  ⟨hmem,
    (C6_class_name_fallback boxes0 cls0 scores0 names0 640 480 _ hmem).1 (by decide),
    by decide⟩

/-- **C7.** The normalization layer zips the boxes, class-id and score
arrays position-wise: the detections list is literally the map of the
record builder over the zip, and the `i`-th DetectionRecord is built from
the `i`-th box, `i`-th class id and `i`-th score — the model's emission
order, with no re-sorting by confidence, area or class. -/
theorem C7_positionwise_order (boxes : List (ℚ × ℚ × ℚ × ℚ))
    (cls_ids scores : List ℚ) (names : ℤ → Option String) (iw ih : ℕ) (i : ℕ)
    (h1 : i < boxes.length) (h2 : i < cls_ids.length) (h3 : i < scores.length)
    (h : i < (_build_detections_dict boxes cls_ids scores names iw ih).detections.length) :
    (_build_detections_dict boxes cls_ids scores names iw ih).detections =
      (zip3 boxes cls_ids scores).map (mkDetection names iw ih) ∧
    (_build_detections_dict boxes cls_ids scores names iw ih).detections.get ⟨i, h⟩ =
      mkDetection names iw ih
        (boxes.get ⟨i, h1⟩, cls_ids.get ⟨i, h2⟩, scores.get ⟨i, h3⟩) :=
  ⟨build_detections_eq boxes cls_ids scores names iw ih,
    build_detections_get boxes cls_ids scores names iw ih i h1 h2 h3 h⟩

/-- Evaluation of C7 on the fixtures at index 1: the second record pairs
the second box with the second class id and the second score. -/
theorem C7_positionwise_order_witness :
    (_build_detections_dict boxes0 cls0 scores0 names0 640 480).detections =
      (zip3 boxes0 cls0 scores0).map (mkDetection names0 640 480) ∧
    (_build_detections_dict boxes0 cls0 scores0 names0 640 480).detections.get
        ⟨1, by decide⟩ =
      mkDetection names0 640 480
        (boxes0.get ⟨1, by decide⟩, cls0.get ⟨1, by decide⟩, scores0.get ⟨1, by decide⟩) :=
  C7_positionwise_order boxes0 cls0 scores0 names0 640 480 1
    (by decide) (by decide) (by decide) (by decide)

/-- **C10.** The image dimensions nested in every record's bbox equal the
top-level `image_width`/`image_height` of the same DetectionResult. -/
theorem C10_dims_duplicated (boxes : List (ℚ × ℚ × ℚ × ℚ))
    (cls_ids scores : List ℚ) (names : ℤ → Option String) (iw ih : ℕ)
    (d : DetectionRecord)
    (hd : d ∈ (_build_detections_dict boxes cls_ids scores names iw ih).detections) :
    d.bbox.image_width =
      (_build_detections_dict boxes cls_ids scores names iw ih).image_width ∧
    d.bbox.image_height =
      (_build_detections_dict boxes cls_ids scores names iw ih).image_height := by
  rw [build_detections_eq] at hd
  obtain ⟨⟨b, c, s⟩, hmem, rfl⟩ := List.mem_map.mp hd
  obtain ⟨x1, y1, x2, y2⟩ := b
  exact ⟨rfl, rfl⟩

/-- Evaluation of C10 on the fixtures. -/
theorem C10_dims_duplicated_witness :
    (mkDetection names0 640 480 ((10, 20, 110, 220), 0, 9/10)) ∈
      (_build_detections_dict boxes0 cls0 scores0 names0 640 480).detections ∧
    (mkDetection names0 640 480 ((10, 20, 110, 220), 0, 9/10)).bbox.image_width =
      (_build_detections_dict boxes0 cls0 scores0 names0 640 480).image_width ∧
    (mkDetection names0 640 480 ((10, 20, 110, 220), 0, 9/10)).bbox.image_height =
      (_build_detections_dict boxes0 cls0 scores0 names0 640 480).image_height :=
  have hmem : (mkDetection names0 640 480 ((10, 20, 110, 220), 0, 9/10)) ∈
      (_build_detections_dict boxes0 cls0 scores0 names0 640 480).detections :=
    List.mem_cons_self _ _
  ⟨hmem, C10_dims_duplicated boxes0 cls0 scores0 names0 640 480 _ hmem⟩

end Yolo

namespace Yolo

/-! ### JSON values

The detection dictionaries travel as JSON: `JSONResponse(content=...)` on the
service side, `resp.json()` / `json.dump` on the client side.  `Json` is the
value space of those documents; the byte-level codec (`json` standard
library, UTF-8, `indent=2`, `ensure_ascii=False`) is external and faithful,
so file and body contents are modelled at the value level. -/

inductive Json where
  | null
  | bool (b : Bool)
  | int (n : ℤ)
  | num (q : ℚ)
  | str (s : String)
  | arr (elems : List Json)
  | obj (fields : List (String × Json))

/-- The `"bbox"` dictionary of `_build_detections_dict` as a JSON value
(`detector.py` lines 71-82, field order preserved). -/
def bboxToJson (b : BBox) : Json :=
  .obj [("x1", .num b.x1), ("y1", .num b.y1), ("x2", .num b.x2), ("y2", .num b.y2),
    ("width", .num b.width), ("height", .num b.height),
    ("x_center", .num b.x_center), ("y_center", .num b.y_center),
    ("image_width", .int (b.image_width : ℤ)), ("image_height", .int (b.image_height : ℤ))]

/-- One detection dictionary as a JSON value (`detector.py` lines 66-84). -/
def detectionToJson (d : DetectionRecord) : Json :=
  .obj [("class_id", .int d.class_id), ("class_name", .str d.class_name),
    ("confidence", .num d.confidence), ("bbox", bboxToJson d.bbox)]

/-- The full detections dictionary as a JSON value (`detector.py` lines
86-91); this is the `/predict` response body and the exported file content. -/
def resultToJson (r : DetectionResult) : Json :=
  .obj [("image_width", .int (r.image_width : ℤ)),
    ("image_height", .int (r.image_height : ℤ)),
    ("num_detections", .int (r.num_detections : ℤ)),
    ("detections", .arr (r.detections.map detectionToJson))]

/-! ### Deserialization (the spec's words: "deserializing the written JSON
reproduces the original DetectionResult").  `resultFromJson` is the natural
structural decoder of the documents above; round-tripping through it is the
value-level content of `json.load (json.dump x) == x`. -/

/-- Dictionary key lookup on a JSON object. -/
def jGet (j : Json) (k : String) : Option Json :=
  match j with
  | .obj fields => (fields.find? (fun p => p.1 == k)).map (fun p => p.2)
  | _ => none

def jNum : Json → Option ℚ
  | .num q => some q
  | _ => none

def jInt : Json → Option ℤ
  | .int n => some n
  | _ => none

def jNat : Json → Option ℕ
  | .int (.ofNat n) => some n
  | _ => none

def jStr : Json → Option String
  | .str s => some s
  | _ => none

def jArr : Json → Option (List Json)
  | .arr elems => some elems
  | _ => none

def bboxFromJson (j : Json) : Option BBox := do
  let x1 ← jGet j "x1" >>= jNum
  let y1 ← jGet j "y1" >>= jNum
  let x2 ← jGet j "x2" >>= jNum
  let y2 ← jGet j "y2" >>= jNum
  let width ← jGet j "width" >>= jNum
  let height ← jGet j "height" >>= jNum
  let x_center ← jGet j "x_center" >>= jNum
  let y_center ← jGet j "y_center" >>= jNum
  let image_width ← jGet j "image_width" >>= jNat
  let image_height ← jGet j "image_height" >>= jNat
  return ⟨x1, y1, x2, y2, width, height, x_center, y_center, image_width, image_height⟩

def detectionFromJson (j : Json) : Option DetectionRecord := do
  let class_id ← jGet j "class_id" >>= jInt
  let class_name ← jGet j "class_name" >>= jStr
  let confidence ← jGet j "confidence" >>= jNum
  let bbox ← jGet j "bbox" >>= bboxFromJson
  return ⟨class_id, class_name, confidence, bbox⟩

def resultFromJson (j : Json) : Option DetectionResult := do
  let image_width ← jGet j "image_width" >>= jNat
  let image_height ← jGet j "image_height" >>= jNat
  let num_detections ← jGet j "num_detections" >>= jNat
  let elems ← jGet j "detections" >>= jArr
  let detections ← elems.mapM detectionFromJson
  return ⟨image_width, image_height, num_detections, detections⟩

theorem bboxFromJson_toJson (b : BBox) : bboxFromJson (bboxToJson b) = some b :=
  rfl

theorem detectionFromJson_toJson (d : DetectionRecord) :
    detectionFromJson (detectionToJson d) = some d :=
  rfl

theorem mapM_detectionFromJson (l : List DetectionRecord) :
    (l.map detectionToJson).mapM detectionFromJson = some l := by
  induction l with
  | nil => rfl
  | cons d l ih =>
    simp only [List.map_cons, List.mapM_cons, detectionFromJson_toJson, ih]
    rfl

theorem resultFromJson_toJson (r : DetectionResult) :
    resultFromJson (resultToJson r) = some r := by
  have h : resultFromJson (resultToJson r) =
      ((r.detections.map detectionToJson).mapM detectionFromJson).bind
        (fun detections =>
          some ⟨r.image_width, r.image_height, r.num_detections, detections⟩) :=
    rfl
  rw [h, mapM_detectionFromJson]
  rfl

end Yolo

namespace Yolo

/-! ### The FastAPI HTTP boundary (`app/main.py`) -/

/-- An HTTP response: status code and JSON body. -/
structure HttpResp where
  status : ℕ
  body : Json

/-- A request to the two routes of `app/main.py`. -/
inductive Request where
  | health
  | predictReq (image_bytes : List ℕ)

/-- `Image.open(io.BytesIO(image_bytes)).convert("RGB")` (`app/main.py`
line 46).  The PIL codec is external and is injected as `decode`; on bytes
it cannot decode, `Image.open` raises `UnidentifiedImageError`. -/
def open_image (decode : List ℕ → Option Img) (image_bytes : List ℕ) :
    Except PyError Img :=
  match decode image_bytes with
  | some image => .ok image
  | none => .error .unidentifiedImage

/-- The `POST /predict` handler (`app/main.py` lines 40-49).  There is no
try/except around the decode: a decode failure propagates out of the
handler.  On success the handler returns `JSONResponse(content=detections)`. -/
def predict_route (decode : List ℕ → Option Img) (model : Img → ModelOutput)
    (image_bytes : List ℕ) : Except PyError Json := do
  let image ← open_image decode image_bytes
  let detections := predict model (some image)
  return resultToJson detections

/-- The `GET /health` handler (`app/main.py` lines 35-37). -/
def health_check : Json :=
  Json.obj [("status", Json.str "ok")]

/-- The framework boundary (FastAPI/Starlette, external): a handler's
return value becomes a 200 JSON response; an exception escaping the handler
is caught by the server framework and answered with a plain
500 Internal Server Error response — the process itself does not crash. -/
def run_handler (h : Except PyError Json) : HttpResp :=
  match h with
  | .ok body => { status := 200, body := body }
  | .error _ => { status := 500, body := Json.str "Internal Server Error" }

/-- The routing table of the FastAPI app in `app/main.py`: dispatch a
request to its handler and turn the outcome into an HTTP response.
`decode` is the PIL image codec and `model` the loaded YOLO model. -/
def app_route (decode : List ℕ → Option Img) (model : Img → ModelOutput) :
    Request → HttpResp
  | .health => run_handler (.ok health_check)
  | .predictReq image_bytes => run_handler (predict_route decode model image_bytes)

/-- 4xx statuses: the client-error class. -/
def isClientError (status : ℕ) : Prop :=
  400 ≤ status ∧ status < 500

instance (status : ℕ) : Decidable (isClientError status) :=
  inferInstanceAs (Decidable (_ ∧ _))

/-- A decoder that rejects its input, as PIL does on non-image bytes
(e.g. the single byte 0 is no known image format). -/
def decode0 : List ℕ → Option Img :=
  fun _ => none

/-- A trivial stand-in model (never reached in the C4 scenario). -/
def model0 : Img → ModelOutput :=
  fun _ => ⟨[], [], [], fun _ => none⟩

end Yolo

namespace Yolo

/-- **C5.** `GET /health` returns status 200 with body `{"status": "ok"}`
for every state of the image codec and of the model (the route takes no
parameters, and the response does not depend on the model — no inference is
performed and, the embedding being pure, it has no side effects). -/
theorem C5_health_constant :
    ∀ (decode : List ℕ → Option Img) (model : Img → ModelOutput),
      app_route decode model .health =
        { status := 200, body := Json.obj [("status", Json.str "ok")] } := by
  intro decode model
  rfl

/-- **C4, as stated, is false**: uploading undecodable bytes (the single
byte 0, which the PIL codec rejects) yields response status 500 — a
server-error, not a client-error (4xx) status. -/
theorem C4_counterexample_server_error :
    (app_route decode0 model0 (.predictReq [0])).status = 500 ∧
    ¬ isClientError (app_route decode0 model0 (.predictReq [0])).status :=
  ⟨rfl, by decide⟩

/-- **C4 (amended).** For every upload to POST /predict whose bytes are not
decodable as an image, the uncaught decode exception escapes the handler
and the framework answers with a 500 Internal Server Error response: the
service process does not crash, but the status is a server error — not a
4xx client error, and not a 200 response with an empty detection list. -/
theorem C4_amended_undecodable_is_500 (decode : List ℕ → Option Img)
    (model : Img → ModelOutput) (image_bytes : List ℕ)
    (hundec : decode image_bytes = none) :
    app_route decode model (.predictReq image_bytes) =
      { status := 500, body := Json.str "Internal Server Error" } ∧
    ¬ isClientError (app_route decode model (.predictReq image_bytes)).status ∧
    (app_route decode model (.predictReq image_bytes)).status ≠ 200 := by
  have h : app_route decode model (.predictReq image_bytes) =
      { status := 500, body := Json.str "Internal Server Error" } := by
    simp [app_route, run_handler, predict_route, open_image, hundec]
  refine ⟨h, ?_, ?_⟩
  · rw [h]
    decide
  · rw [h]
    decide

/-- Evaluation of the amended C4 on the concrete rejecting codec and the
byte string `[0]`. -/
theorem C4_amended_undecodable_is_500_witness :
    decode0 [0] = none ∧
    (app_route decode0 model0 (.predictReq [0]) =
        { status := 500, body := Json.str "Internal Server Error" } ∧
      ¬ isClientError (app_route decode0 model0 (.predictReq [0])).status ∧
      (app_route decode0 model0 (.predictReq [0])).status ≠ 200) :=
  ⟨rfl, C4_amended_undecodable_is_500 decode0 model0 [0] rfl⟩

end Yolo

namespace Yolo

/-! ### The Gradio client (`ui/app.py`) -/

/-- The client's output directory (`ui/app.py` line 13, created at startup). -/
def OUTPUT_DIR : String :=
  "ui_outputs"

/-- The JSON files in the output directory: newest write first; a write to
an existing path shadows it (`open(..., "w")` truncates).  File contents
are JSON values (see the `Json` section: the byte codec is external). -/
structure FileSystem where
  files : List (String × Json)

/-- `OUTPUT_DIR / f"detections_{file_id}.json"` (`ui/app.py` line 61). -/
def detectionsPath (file_id : String) : String :=
  OUTPUT_DIR ++ "/detections_" ++ file_id ++ ".json"

/-- `save_detections_json` (`ui/app.py` lines 56-64): write the detections
dictionary to a fresh path derived from `file_id` and return that path.
`uuid.uuid4().hex` is the external randomness source, injected as
`file_id`; `json.dump(detections, f, indent=2, ensure_ascii=False)` writes
the dictionary verbatim. -/
def save_detections_json (file_id : String) (detections : Json)
    (fs : FileSystem) : String × FileSystem :=
  let json_path := detectionsPath file_id
  (json_path, ⟨(json_path, detections) :: fs.files⟩)

/-- `requests.Response.raise_for_status` (external `requests` library):
raises `HTTPError` exactly on the 4xx/5xx error statuses. -/
def raise_for_status (resp : HttpResp) : Except PyError Unit :=
  if 400 ≤ resp.status ∧ resp.status < 600 then
    .error (.httpError resp.status)
  else
    .ok ()

/-- `predict_gradio` (`ui/app.py` lines 67-91).  The HTTP round trip
`requests.post(API_URL, files=...)` is injected as `post`, and the pure
PIL rendering of `draw_boxes` (`ui/app.py` lines 17-53, an external-toolkit
overlay with no filesystem effect) as `render`; `uuid.uuid4().hex` of the
save step is injected as `file_id`.  The result is the pair of Gradio
outputs (annotated image, path of the saved JSON) or the raised exception,
together with the resulting output-directory state. -/
def predict_gradio (post : Img → HttpResp) (render : Img → Json → Img)
    (file_id : String) (image : Option Img) (fs : FileSystem) :
    Except PyError (Option Img × Option String) × FileSystem :=
  match image with
  | none => (.ok (none, none), fs)
  | some img =>
    let resp := post img
    match raise_for_status resp with
    | .error e => (.error e, fs)
    | .ok _ =>
      let detections := resp.body
      let annotated := render img detections
      let saved := save_detections_json file_id detections fs
      (.ok (some annotated, some saved.1), saved.2)

end Yolo

namespace Yolo

/-! ### Freshness of the export path -/

theorem string_append_data (x y : String) : (x ++ y).data = x.data ++ y.data :=
  rfl

theorem string_data_inj {x y : String} (h : x.data = y.data) : x = y := by
  cases x
  cases y
  cases h
  rfl

theorem detectionsPath_inj {a b : String}
    (h : detectionsPath a = detectionsPath b) : a = b := by
  have hd : ("ui_outputs/detections_").data ++ (a.data ++ (".json").data) =
      ("ui_outputs/detections_").data ++ (b.data ++ (".json").data) := by
    have := congrArg String.data h
    simpa [detectionsPath, OUTPUT_DIR, string_append_data, List.append_assoc] using this
  have h2 : a.data ++ (".json").data = b.data ++ (".json").data :=
    List.append_cancel_left hd
  exact string_data_inj (List.append_cancel_right h2)

end Yolo

namespace Yolo

/-- **C8.** Whenever the Inference Endpoint answers with an error (non-2xx)
HTTP status — a 4xx/5xx status, the only non-success statuses this
interaction can observe — the client aborts before rendering:
`raise_for_status` raises, the error is surfaced as the interaction's
outcome, no annotated image is produced and the output directory is left
unchanged (no JSON file is written). -/
theorem C8_abort_on_http_error (post : Img → HttpResp) (render : Img → Json → Img)
    (file_id : String) (img : Img) (fs : FileSystem)
    (herr : 400 ≤ (post img).status ∧ (post img).status < 600) :
    predict_gradio post render file_id (some img) fs =
      (.error (.httpError (post img).status), fs) := by
  simp [predict_gradio, raise_for_status, herr]

/-- Evaluation of C8 on a concrete failing endpoint: a 404 answer aborts
the interaction and leaves a one-file output directory untouched. -/
theorem C8_abort_on_http_error_witness :
    (400 ≤ 404 ∧ 404 < 600) ∧
    predict_gradio (fun _ => ⟨404, Json.null⟩) (fun i _ => i) "feedface"
        (some ⟨640, 480⟩) ⟨[(detectionsPath "0", Json.null)]⟩ =
      (.error (.httpError 404), ⟨[(detectionsPath "0", Json.null)]⟩) :=
  ⟨by decide,
    C8_abort_on_http_error (fun _ => ⟨404, Json.null⟩) (fun i _ => i) "feedface"
      ⟨640, 480⟩ ⟨[(detectionsPath "0", Json.null)]⟩ (by decide)⟩

/-- **C9.** A successful client interaction (200 answer carrying a
DetectionResult body) writes exactly one new JSON file: the resulting
output directory is the old one plus a single entry whose path embeds the
freshly generated identifier; provided that identifier differs from the
identifiers of all previous writes, the path is distinct from every
existing file's path (so nothing is overwritten); and the written content
round-trips — deserializing it reproduces the original DetectionResult. -/
theorem C9_export_roundtrip (post : Img → HttpResp) (render : Img → Json → Img)
    (file_id : String) (img : Img) (fs : FileSystem) (d : DetectionResult)
    (hpost : post img = ⟨200, resultToJson d⟩)
    (hfresh : ∀ p ∈ fs.files.map Prod.fst, ∃ fid, p = detectionsPath fid ∧ fid ≠ file_id) :
    predict_gradio post render file_id (some img) fs =
      (.ok (some (render img (resultToJson d)), some (detectionsPath file_id)),
        ⟨(detectionsPath file_id, resultToJson d) :: fs.files⟩) ∧
    detectionsPath file_id ∉ fs.files.map Prod.fst ∧
    resultFromJson (resultToJson d) = some d := by
  refine ⟨?_, ?_, resultFromJson_toJson d⟩
  · simp [predict_gradio, raise_for_status, hpost, save_detections_json]
  · intro hmem
    obtain ⟨fid, hfid, hne⟩ := hfresh _ hmem
    exact hne (detectionsPath_inj hfid.symm)

/-- Evaluation of C9: a 200 answer carrying the two-record fixture result,
written under a fresh identifier next to one previously exported file. -/
theorem C9_export_roundtrip_witness :
    ((fun (_ : Img) => (⟨200, resultToJson
          (_build_detections_dict boxes0 cls0 scores0 names0 640 480)⟩ : HttpResp))
        ⟨640, 480⟩ =
      ⟨200, resultToJson (_build_detections_dict boxes0 cls0 scores0 names0 640 480)⟩) ∧
    (predict_gradio
        (fun _ => ⟨200, resultToJson
          (_build_detections_dict boxes0 cls0 scores0 names0 640 480)⟩)
        (fun i _ => i) "c0ffee" (some ⟨640, 480⟩)
        ⟨[(detectionsPath "0", Json.null)]⟩ =
      (.ok (some ⟨640, 480⟩, some (detectionsPath "c0ffee")),
        ⟨[(detectionsPath "c0ffee",
            resultToJson (_build_detections_dict boxes0 cls0 scores0 names0 640 480)),
          (detectionsPath "0", Json.null)]⟩) ∧
      detectionsPath "c0ffee" ∉
        (⟨[(detectionsPath "0", Json.null)]⟩ : FileSystem).files.map Prod.fst ∧
      resultFromJson (resultToJson
          (_build_detections_dict boxes0 cls0 scores0 names0 640 480)) =
        some (_build_detections_dict boxes0 cls0 scores0 names0 640 480)) :=
  ⟨rfl,
    C9_export_roundtrip
      (fun _ => ⟨200, resultToJson
        (_build_detections_dict boxes0 cls0 scores0 names0 640 480)⟩)
      (fun i _ => i) "c0ffee" ⟨640, 480⟩ ⟨[(detectionsPath "0", Json.null)]⟩
      (_build_detections_dict boxes0 cls0 scores0 names0 640 480) rfl
      (by
        intro p hp
        simp at hp
        exact ⟨"0", hp, by decide⟩)⟩

end Yolo
